import Mathlib

/-!
Verification development for the North-Star tabular-ML backend.

The definitions below are a shallow embedding of the backend services:
`TrainingService` (backend/app/services/training_service.py),
`ModelService` (backend/app/services/model_service.py),
`AnalyticsService` (backend/app/services/analytics_service.py),
`ConnectionManager` (backend/app/services/websocket_manager.py), and the
model-switch route (backend/app/api/routes.py).

Machine floats are modelled by rationals, tables by lists of rows, Python
dicts by association lists, the filesystem by a list of file names, and the
external ML library (scikit-learn) by abstract per-row functions plus
explicit failure flags for the operations that may raise.
-/

/-- Python dict indexing with a default, as in d.get(k, default): returns the
value bound to the first matching key, or the default when the key is absent. -/
def dictGet {α : Type} (d : List (String × α)) (k : String) (dflt : α) : α :=
  match d with
  | [] => dflt
  | p :: rest => if p.1 = k then p.2 else dictGet rest k dflt

/-- Python dict membership test (k in d). -/
def dictHasKey {α : Type} (d : List (String × α)) (k : String) : Bool :=
  match d with
  | [] => false
  | p :: rest => if p.1 = k then true else dictHasKey rest k

/-- Lexicographic code-point order on character lists, mirroring Python string
comparison. -/
def charListLe : List Char → List Char → Bool
  | [], _ => true
  | _ :: _, [] => false
  | a :: as, b :: bs => if a = b then charListLe as bs else decide (a.toNat < b.toNat)

/-- Python string comparison a <= b (lexicographic by code point). -/
def strLe (a b : String) : Bool := charListLe a.data b.data

/-- Insertion of a string into a sorted list, keeping existing equal or smaller
elements first (stable, as Python sorted is). -/
def insertStr (a : String) : List String → List String
  | [] => [a]
  | b :: rest => if strLe b a then b :: insertStr a rest else a :: b :: rest

/-- Python sorted() on a list of strings (insertion sort over the code-point
order). -/
def sortStrings : List String → List String
  | [] => []
  | a :: rest => insertStr a (sortStrings rest)

/-- Last element of a nonempty Python sorted() result, i.e. sorted(files)[-1]:
the lexicographically greatest element. -/
def sortedLast (dflt : String) (l : List String) : String :=
  match sortStrings l with
  | [] => dflt
  | a :: rest => (a :: rest).getLast (by simp)

/-- Test that string s starts with string p (over the character lists, which
the kernel can evaluate). -/
def strHasPre (p s : String) : Bool := p.data.isPrefixOf s.data

/-- Test that string s ends with string p. -/
def strHasSuf (p s : String) : Bool := p.data.isSuffixOf s.data

/-- Python truthiness of an Optional[str]: None and the empty string are
falsy. -/
def truthyOpt : Option String → Bool
  | none => false
  | some s => !(s.data.isEmpty)

/-- Python str() applied to an Optional[str]: str(None) is the string
"None". -/
def pathStr : Option String → String
  | none => "None"
  | some s => s

/-- Stem of a file name as pathlib.Path(...).stem computes it: the name with
its last dot-extension removed (directories do not occur in the modelled file
lists). -/
def stemOf (p : String) : String :=
  let cs := p.data
  if cs.contains '.' then String.mk (((cs.reverse.dropWhile (fun c => !(c = '.'))).drop 1).reverse)
  else p

/-- Result of the regex match ([^_]+)_ applied to a stem: the nonempty run of
characters before the first underscore, provided an underscore follows it. -/
def extractFamily (stem : String) : Option String :=
  let cs := stem.data
  let seg := cs.takeWhile (fun c => !(c = '_'))
  if seg.length = 0 then none
  else if seg.length = cs.length then none
  else some (String.mk seg)

/-!
TrainingService.get_model_hyperparameters and TrainingService.create_model
(backend/app/services/training_service.py). The hyperparameter table keeps,
for each model family, the list of hyperparameter names declared in the
source dict (the per-parameter type/default/bounds/description records are
not needed by any claim and are elided); note that the source dict has no
entry for NaiveBayes even though create_model accepts it.
-/

/-- Keys of the hyperparameters dict in get_model_hyperparameters, each with
the parameter names of its specification. -/
def hyperparameterTable : List (String × List String) :=
  [("RandomForest",
    ["n_estimators", "max_depth", "min_samples_split", "min_samples_leaf", "max_features"]),
   ("GradientBoosting", ["n_estimators", "learning_rate", "max_depth", "subsample"]),
   ("SVM", ["C", "kernel", "gamma"]),
   ("DecisionTree", ["max_depth", "min_samples_split", "criterion"]),
   ("LogisticRegression", ["C", "max_iter", "solver"]),
   ("KNN", ["n_neighbors", "weights", "algorithm"])]

/-- TrainingService.get_model_hyperparameters: hyperparameters.get(model_name, \x7b\x7d). -/
def get_model_hyperparameters (model_name : String) : List String :=
  dictGet hyperparameterTable model_name []

/-- Hyperparameter values as they appear in requests (JSON scalars or null). -/
inductive HValue where
  | hInt (n : Int)
  | hFloat (num : Int) (den : Nat)
  | hStr (s : String)
  | hBool (b : Bool)
  | hNone
deriving DecidableEq

/-- Hyperparameter cleaning in create_model: drop entries whose value is None
or the string "None". -/
def cleanParams (params : List (String × HValue)) : List (String × HValue) :=
  params.filter (fun p => !(p.2 = HValue.hNone) && !(p.2 = HValue.hStr "None"))

/-- Python dict.setdefault k v: add the binding only when the key is absent. -/
def setDefaultParam (params : List (String × HValue)) (k : String) (v : HValue) :
    List (String × HValue) :=
  if dictHasKey params k then params else params ++ [(k, v)]

/-- Keys of the model_map dict in TrainingService.create_model. -/
def modelMapKeys : List String :=
  ["RandomForest", "GradientBoosting", "SVM", "DecisionTree",
   "LogisticRegression", "KNN", "NaiveBayes"]

/-- TrainingService.create_model: clean the hyperparameters, fail on a family
name outside model_map, then apply the per-family setdefault calls and build
the estimator (represented by its family name and final constructor
arguments). -/
def create_model (model_name : String) (hyperparameters : List (String × HValue)) :
    Except String (String × List (String × HValue)) :=
  let clean_params := cleanParams hyperparameters
  if !(modelMapKeys.contains model_name) then
    Except.error ("Unknown model: " ++ model_name)
  else
    let clean_params :=
      if model_name = "SVM" then
        setDefaultParam (setDefaultParam clean_params "probability" (HValue.hBool true))
          "random_state" (HValue.hInt 42)
      else if model_name = "RandomForest" ∨ model_name = "GradientBoosting" ∨
          model_name = "DecisionTree" ∨ model_name = "LogisticRegression" then
        setDefaultParam clean_params "random_state" (HValue.hInt 42)
      else if model_name = "KNN" then
        setDefaultParam clean_params "n_jobs" (HValue.hInt (-1))
      else clean_params
    Except.ok (model_name, clean_params)

/-!
TrainingService.train_model (backend/app/services/training_service.py,
lines 252-427). The run is modelled as a sequential state machine over the
persisted-artifact and history state; the staged progress events record
(progress, stage) pairs (the human-readable messages carry no claim-relevant
content and are elided). The external collaborators that can raise inside
the try block are represented explicitly: the stratified split (scikit-learn),
estimator construction (create_model above), the blocking fit call, and the
JSON serialization of the metadata file.
-/

/-- Stages named by the progress events of train_model. -/
inductive Stage where
  | preprocessing
  | training
  | evaluation
  | saving
  | complete
  | error
deriving DecidableEq

/-- One progress event as published by send_progress. -/
structure ProgressEvent where
  progress : Nat
  stage : Stage
deriving DecidableEq

/-- Training metadata record appended to the in-process history (claim-relevant
fields). -/
structure TrainingRecord where
  training_id : String
  model_name : String
deriving DecidableEq

/-- Persistent and in-process state touched by a training run: artifact files
in models/, metadata files in output/, and the in-memory training history. -/
structure TrainState where
  artifacts : List String
  metadataFiles : List String
  history : List TrainingRecord
deriving DecidableEq

/-- Modelled from the spec: scikit-learn train_test_split (an external
collaborator, not part of src/) raises when stratification is requested and
some class of the stratify labels has fewer than 2 members. train_model always
passes stratify=y, so the split step raises exactly on this condition. -/
def stratifyInfeasible (y : List String) : Bool :=
  y.any (fun c => y.count c < 2)

/-- Inputs of one train_model call, together with the failure behaviour of the
two black-box collaborators invoked during the run: fitRaises models an
exception inside pipeline.fit (spec: FitFailure), metadataWriteRaises models an
exception while serializing the metadata JSON (e.g. a non-JSON-serializable
class label), which in the source occurs after the artifact dump. -/
structure TrainRun where
  trainingId : String
  targetValues : List String
  modelName : String
  fitRaises : Bool
  metadataWriteRaises : Bool

/-- Outcome of a train_model call: the final state, the progress events in
emission order, and whether the call re-raised an exception. -/
structure RunOutcome where
  state : TrainState
  events : List ProgressEvent
  raised : Bool

/-- Error path of train_model: the except-branch publishes an error-stage event
with progress 0 and re-raises. -/
def errorOutcome (st : TrainState) (evts : List ProgressEvent) : RunOutcome :=
  { state := st, events := evts ++ [⟨0, Stage.error⟩], raised := true }

/-- TrainingService.train_model, step by step in source order: the staged
progress events at 10/20/30 (preprocessing), the stratified split, the events
at 40 (training) and estimator construction, the events at 50/60, the fit, the
events at 70 (training), 80 (evaluation) and 90 (saving), the artifact dump,
the metadata file write, the event at 100 (complete), and the history append.
Any exception triggers the error event and is re-raised. -/
def train_model (run : TrainRun) (st : TrainState) : RunOutcome :=
  let e1 : List ProgressEvent :=
    [⟨10, Stage.preprocessing⟩, ⟨20, Stage.preprocessing⟩]
  if stratifyInfeasible run.targetValues then errorOutcome st e1
  else
    let e2 := e1 ++ [⟨30, Stage.preprocessing⟩, ⟨40, Stage.training⟩]
    if !(modelMapKeys.contains run.modelName) then errorOutcome st e2
    else
      let e3 := e2 ++ [⟨50, Stage.training⟩, ⟨60, Stage.training⟩]
      if run.fitRaises then errorOutcome st e3
      else
        let e4 := e3 ++ [⟨70, Stage.training⟩, ⟨80, Stage.evaluation⟩, ⟨90, Stage.saving⟩]
        let artifact := run.modelName ++ "_classification_" ++ run.trainingId ++ ".joblib"
        let st1 := { st with artifacts := st.artifacts ++ [artifact] }
        if run.metadataWriteRaises then errorOutcome st1 e4
        else
          let st2 := { st1 with
            metadataFiles := st1.metadataFiles ++
              ["training_metadata_" ++ run.trainingId ++ ".json"] }
          let e5 := e4 ++ [⟨100, Stage.complete⟩]
          let st3 := { st2 with
            history := st2.history ++ [⟨run.trainingId, run.modelName⟩] }
          { state := st3, events := e5, raised := false }

/-- Boolean test that a list of progress events has strictly increasing
progress values. -/
def strictlyIncreasing : List ProgressEvent → Bool
  | [] => true
  | [_] => true
  | a :: b :: rest => decide (a.progress < b.progress) && strictlyIncreasing (b :: rest)

/-!
ModelService (backend/app/services/model_service.py). A pandas DataFrame is a
list of column names plus rows of cell values; a deserialized artifact is a
Pipeline carrying the named-step metadata that _extract_model_info inspects
plus abstract per-row predict / predict_proba functions supplied by the ML
library; the models directory is a list of file names and joblib.load is an
abstract partial map from file name to Pipeline (None, when loading raises).
-/

/-- Cell values of a table (their type plays no role in the claims). -/
abbrev Cell := String

/-- An in-memory table of named columns. -/
structure DataFrame where
  columns : List String
  rows : List (List Cell)

/-- A deserialized model artifact. hasNamedSteps and preStep mirror the
named_steps / transformers_ structure that _extract_model_info inspects;
rowPredict and rowProba are the black-box per-row predict and predict_proba
of the fitted estimator (rowProba is absent when the estimator does not
support probabilities). -/
structure Pipeline where
  hasNamedSteps : Bool
  preStep : Option (List String × List String)
  modelClasses : Option (List String)
  rowPredict : List Cell → String
  rowProba : Option (List Cell → List ℚ)

/-- Mutable fields of ModelService (model_service.py, __init__). -/
structure ModelService where
  model : Option Pipeline
  model_path : Option String
  model_name : String
  is_classification : Bool
  feature_names : Option (List String)
  numeric_features : Option (List String)
  categorical_features : Option (List String)
  target_classes : Option (List String)
  current_model_name : String

/-- Errors raised by the prediction path. -/
inductive PredictError where
  | notLoaded
  | schemaMismatch (missing : List String)
deriving DecidableEq

/-- Errors raised by ModelService.load_model: FileNotFoundError with its
message, or an exception from joblib.load itself. -/
inductive LoadFailure where
  | fileNotFound (msg : String)
  | loadRaises
deriving DecidableEq

/-- Set difference sorted(set(feature_names) - set(data.columns)) used in the
schema-mismatch error message. -/
def missingColumns (feature_names : List String) (cols : List String) : List String :=
  sortStrings ((feature_names.filter (fun n => !(cols.contains n))).dedup)

/-- Column selection data[feature_names]: keep exactly the named columns, in
the given order, reading each cell through the position of its column name. -/
def selectColumns (data : DataFrame) (names : List String) : DataFrame :=
  { columns := names,
    rows := data.rows.map (fun r =>
      names.map (fun n =>
        match data.columns.indexOf? n with
        | some i => r.getD i ""
        | none => "")) }

/-- ModelService._validate_and_align_features: with no extracted feature names
(None or empty) the data is returned as-is; otherwise the schema names absent
from the data columns are collected and reported as a ValueError, and when none
are missing the data is reduced and reordered to the schema columns. -/
def validate_and_align_features (feature_names : Option (List String))
    (data : DataFrame) : Except PredictError DataFrame :=
  match feature_names with
  | none => Except.ok data
  | some names =>
    if names.isEmpty then Except.ok data
    else
      let missing_cols := missingColumns names data.columns
      if missing_cols.isEmpty then Except.ok (selectColumns data names)
      else Except.error (PredictError.schemaMismatch missing_cols)

/-- Row maximum np.max(row): the greatest entry of a nonempty row. -/
def rowMax : List ℚ → ℚ
  | [] => 0
  | x :: xs => xs.foldl max x

/-- Result dictionary of ModelService.predict. -/
structure PredictResult where
  predictions : List String
  probabilities : Option (List (List ℚ))
  confidence : Option (List ℚ)

/-- ModelService.predict: require a loaded model, validate and align the
input, then predict per row; when the estimator supports predict_proba also
return the probability matrix and the per-row max-probability confidences. -/
def ModelService.predict (svc : ModelService) (data : DataFrame) :
    Except PredictError PredictResult :=
  match svc.model with
  | none => Except.error PredictError.notLoaded
  | some m =>
    match validate_and_align_features svc.feature_names data with
    | Except.error e => Except.error e
    | Except.ok aligned =>
      let predictions := aligned.rows.map m.rowPredict
      match m.rowProba with
      | none =>
        Except.ok { predictions := predictions, probabilities := none, confidence := none }
      | some proba =>
        let probs := aligned.rows.map proba
        Except.ok { predictions := predictions, probabilities := some probs,
                    confidence := some (probs.map rowMax) }

/-- One row of the predictions_detail list of ModelService.predict_batch. -/
structure RowDetail where
  row_id : Nat
  prediction : String
  confidence : Option ℚ

/-- ModelService.predict_batch: same loading and validation/alignment path as
predict, producing the per-row detail records. -/
def ModelService.predict_batch (svc : ModelService) (data : DataFrame) :
    Except PredictError (List RowDetail) :=
  match svc.model with
  | none => Except.error PredictError.notLoaded
  | some m =>
    match validate_and_align_features svc.feature_names data with
    | Except.error e => Except.error e
    | Except.ok aligned =>
      let predictions := aligned.rows.map m.rowPredict
      match m.rowProba with
      | none =>
        Except.ok (predictions.enum.map (fun p => ⟨p.1, p.2, none⟩))
      | some proba =>
        Except.ok ((aligned.rows.map (fun r => (m.rowPredict r, rowMax (proba r)))).enum.map
          (fun p => ⟨p.1, p.2.1, some p.2.2⟩))

/-- ModelService._extract_model_info: when the pipeline has named steps, copy
the numeric/categorical feature lists of the "pre" step (feature_names being
their concatenation) and the classes of the "model" step; fields keep their
previous values when the corresponding step is absent. -/
def extract_model_info (svc : ModelService) (m : Pipeline) : ModelService :=
  if m.hasNamedSteps then
    let svc1 :=
      match m.preStep with
      | some pre =>
        { svc with numeric_features := some pre.1, categorical_features := some pre.2,
                   feature_names := some (pre.1 ++ pre.2) }
      | none => svc
    match m.modelClasses with
    | some cls => { svc1 with target_classes := some cls }
    | none => svc1
  else svc

/-- Glob pattern pre*suf over the flat models directory. -/
def globFiles (pre suf : String) (files : List String) : List String :=
  files.filter (fun f => strHasPre pre f && strHasSuf suf f)

/-- Tail of ModelService.load_model once self.model_path is resolved:
deserialize (which may raise), record the loaded pipeline, rename from the
family prefix of the file stem, and extract the schema metadata. -/
def finishLoad (artifact : String → Option Pipeline) (svc : ModelService) :
    ModelService × Option LoadFailure :=
  let p := (svc.model_path).getD ""
  match artifact p with
  | none => (svc, some LoadFailure.loadRaises)
  | some m =>
    let svc := { svc with model := some m }
    let svc :=
      match extractFamily (stemOf p) with
      | some nm => { svc with current_model_name := nm, model_name := nm }
      | none => svc
    (extract_model_info svc m, none)

/-- ModelService.load_model: resolve self.model_path from the explicit path,
else from the newest file of the requested family, else (when no path is
stored) from the newest RandomForest_* or best_model_* artifact, then load.
The FileNotFoundError branches raise before self.model_path is assigned. -/
def ModelService.load_model (files : List String) (artifact : String → Option Pipeline)
    (svc : ModelService) (model_path : Option String) (model_name : Option String) :
    ModelService × Option LoadFailure :=
  if truthyOpt model_path then
    finishLoad artifact { svc with model_path := model_path }
  else if truthyOpt model_name then
    let n := model_name.getD ""
    let model_files := globFiles (n ++ "_") ".joblib" files
    if model_files.isEmpty then
      (svc, some (LoadFailure.fileNotFound
        ("No " ++ n ++ " model found in models directory.")))
    else
      finishLoad artifact { svc with model_path := some (sortedLast "" model_files) }
  else if !(truthyOpt svc.model_path) then
    let rf := globFiles "RandomForest_" ".joblib" files
    let model_files := if rf.isEmpty then globFiles "best_model_" ".joblib" files else rf
    if model_files.isEmpty then
      (svc, some (LoadFailure.fileNotFound
        "No model file found in models directory. Train a model first."))
    else
      finishLoad artifact { svc with model_path := some (sortedLast "" model_files) }
  else
    finishLoad artifact svc

/-- Claim-relevant fields of the ModelService.get_model_info dictionary:
model_name and str(self.model_path); None when no model is loaded (the source
raises ValueError then). -/
def ModelService.get_model_info (svc : ModelService) : Option (String × String) :=
  match svc.model with
  | none => none
  | some _ => some (svc.model_name, pathStr svc.model_path)

/-- POST /models/switch (backend/app/api/routes.py, switch_model): returns the
resulting service state and HTTP status. A missing or empty model_name raises
HTTPException(400) inside the try block, which the generic handler converts to
500; FileNotFoundError from load_model becomes 404; success returns 200. -/
def switch_model (files : List String) (artifact : String → Option Pipeline)
    (svc : ModelService) (model_name : Option String) : ModelService × Nat :=
  if !(truthyOpt model_name) then (svc, 500)
  else
    match ModelService.load_model files artifact svc none model_name with
    | (svc1, none) => (svc1, 200)
    | (svc1, some (LoadFailure.fileNotFound _)) => (svc1, 404)
    | (svc1, some LoadFailure.loadRaises) => (svc1, 500)

/-!
AnalyticsService.calculate_statistics (backend/app/services/analytics_service.py,
lines 256-283): per-row max-probability confidences and the three-bucket
confidence histogram.
-/

/-- Per-row confidences np.max(prob_array, axis=1). -/
def calculateConfidences (probabilities : List (List ℚ)) : List ℚ :=
  probabilities.map rowMax

/-- np.sum(confidences >= 0.8): size of the high bucket. -/
def highCount (confidences : List ℚ) : Nat :=
  confidences.countP (fun c => decide ((4:ℚ)/5 ≤ c))

/-- np.sum((confidences >= 0.6) and (confidences < 0.8)): size of the medium
bucket. -/
def mediumCount (confidences : List ℚ) : Nat :=
  confidences.countP (fun c => decide ((3:ℚ)/5 ≤ c) && decide (c < (4:ℚ)/5))

/-- np.sum(confidences < 0.6): size of the low bucket. -/
def lowCount (confidences : List ℚ) : Nat :=
  confidences.countP (fun c => decide (c < (3:ℚ)/5))

/-!
ConnectionManager (backend/app/services/websocket_manager.py). Connections are
abstract identifiers; active_connections is the Python list, training_sessions
the dict from session id to its subscriber set (a duplicate-free list).
-/

/-- Abstract WebSocket connection identifier. -/
abbrev Conn := Nat

/-- Mutable state of the ConnectionManager. -/
structure ConnectionManager where
  active_connections : List Conn
  training_sessions : List (String × List Conn)
deriving DecidableEq

/-- Per-session part of ConnectionManager.disconnect: when the connection is in
the session set it is removed, and the session entry is dropped when its set
becomes empty; other entries are kept unchanged. -/
def removeFromSession (websocket : Conn) (p : String × List Conn) :
    Option (String × List Conn) :=
  if websocket ∈ p.2 then
    let connections := p.2.erase websocket
    if connections.isEmpty then none else some (p.1, connections)
  else some p

/-- ConnectionManager.disconnect: remove the connection from the global list
when present, and apply the per-session removal to every session entry. -/
def ConnectionManager.disconnect (cm : ConnectionManager) (websocket : Conn) :
    ConnectionManager :=
  { active_connections :=
      if websocket ∈ cm.active_connections then cm.active_connections.erase websocket
      else cm.active_connections,
    training_sessions := cm.training_sessions.filterMap (removeFromSession websocket) }

/-- Subscribers of a session: the set stored under the session id, empty when
the session is absent (send_to_session returns without sending then). -/
def ConnectionManager.sessionSubscribers (cm : ConnectionManager)
    (session_id : String) : List Conn :=
  dictGet cm.training_sessions session_id []

/-- Recipients of ConnectionManager.send_to_session when every send succeeds:
exactly the current subscribers of the session. -/
def ConnectionManager.sendToSession (cm : ConnectionManager) (session_id : String) :
    List Conn :=
  cm.sessionSubscribers session_id

/-!
Supporting lemmas.
-/

/-- Python dict.get returns the default when the key is absent. -/
theorem dictGet_eq_default {α : Type} (d : List (String × α)) (k : String) (dflt : α)
    (h : dictHasKey d k = false) : dictGet d k dflt = dflt := by
  induction d with
  | nil => rfl
  | cons p rest ih =>
    by_cases hp : p.1 = k
    · simp [dictHasKey, hp] at h
    · simp only [dictGet, if_neg hp]
      exact ih (by simpa [dictHasKey, hp] using h)

/-- Membership in an insertion is membership in the inserted element or the
list. -/
theorem mem_insertStr (x a : String) (l : List String) :
    x ∈ insertStr a l ↔ x = a ∨ x ∈ l := by
  induction l with
  | nil => simp [insertStr]
  | cons b rest ih =>
    by_cases hb : strLe b a
    · simp [insertStr, hb, ih]
      tauto
    · simp [insertStr, hb]

/-- Python sorted() keeps exactly the members of its input. -/
theorem mem_sortStrings (x : String) (l : List String) :
    x ∈ sortStrings l ↔ x ∈ l := by
  induction l with
  | nil => simp [sortStrings]
  | cons a rest ih => simp [sortStrings, mem_insertStr, ih]

/-- Claim C2 counterexample: NaiveBayes is accepted by create_model, yet its
hyperparameter specification is empty; and for an unknown family name the
hyperparameter query returns an empty specification instead of signalling an
error. -/
theorem naive_bayes_empty_spec_cex :
    get_model_hyperparameters "NaiveBayes" = [] ∧
    modelMapKeys.contains "NaiveBayes" = true ∧
    (create_model "NaiveBayes" []).isOk = true ∧
    get_model_hyperparameters "SomeUnknownFamily" = [] := by decide

/-- Claim C2 (amended): the six families RandomForest, GradientBoosting, SVM,
DecisionTree, LogisticRegression and KNN have non-empty hyperparameter
specifications; NaiveBayes, although accepted by estimator construction, has an
empty specification; for a family name outside the construction set the
estimator construction signals an error, while the hyperparameter query merely
returns an empty specification for any name outside the specification table. -/
theorem hyperparameter_spec_amended (name : String) :
    (name ∈ ["RandomForest", "GradientBoosting", "SVM", "DecisionTree",
             "LogisticRegression", "KNN"] → get_model_hyperparameters name ≠ []) ∧
    get_model_hyperparameters "NaiveBayes" = [] ∧
    (create_model "NaiveBayes" []).isOk = true ∧
    (modelMapKeys.contains name = false →
      create_model name [] = Except.error ("Unknown model: " ++ name)) ∧
    (dictHasKey hyperparameterTable name = false → get_model_hyperparameters name = []) := by
  refine ⟨?_, by decide, by decide, ?_, ?_⟩
  · intro h
    fin_cases h <;> decide
  · intro h
    simp only [create_model, h, Bool.not_false, if_true]
  · intro h
    exact dictGet_eq_default _ _ _ h

/-- Witness for the amended C2 theorem at the concrete family names
RandomForest (known, non-empty specification) and QuantumForest (unknown,
construction error and empty specification). -/
theorem hyperparameter_spec_amended_witness :
    get_model_hyperparameters "RandomForest" ≠ [] ∧
    create_model "QuantumForest" [] = Except.error "Unknown model: QuantumForest" ∧
    get_model_hyperparameters "QuantumForest" = [] := by
  refine ⟨(hyperparameter_spec_amended "RandomForest").1 (by decide), ?_, ?_⟩
  · have h := (hyperparameter_spec_amended "QuantumForest").2.2.2.1 (by decide)
    simpa using h
  · exact (hyperparameter_spec_amended "QuantumForest").2.2.2.2 (by decide)

/-- Every confidence value lands in exactly one of the three buckets. -/
theorem bucket_partition (conf : List ℚ) :
    highCount conf + mediumCount conf + lowCount conf = conf.length := by
  induction conf with
  | nil => rfl
  | cons c t ih =>
    simp only [highCount, mediumCount, lowCount, List.countP_cons, List.length_cons] at *
    by_cases h1 : (4:ℚ)/5 ≤ c
    · have h2 : ¬(c < (4:ℚ)/5) := not_lt.2 h1
      have h3 : ¬(c < (3:ℚ)/5) := not_lt.2 (le_trans (by norm_num) h1)
      simp [h1, h2, h3]
      omega
    · by_cases h2 : (3:ℚ)/5 ≤ c
      · have hlt : c < (4:ℚ)/5 := not_le.1 h1
        have h3 : ¬(c < (3:ℚ)/5) := not_lt.2 h2
        simp [h1, h2, hlt, h3]
        omega
      · have h3 : c < (3:ℚ)/5 := not_le.1 h2
        simp [h1, h2, h3]
        omega

/-- Claim C7: for every probability matrix the three confidence buckets
strictly partition the rows (high + medium + low = row count); a per-row
max-probability of exactly 0.8 lies in the high bucket, exactly 0.6 in the
medium bucket, and a confidence lies in the low bucket exactly when it is
strictly below 0.6. -/
theorem confidence_buckets_partition (probabilities : List (List ℚ)) :
    highCount (calculateConfidences probabilities) +
      mediumCount (calculateConfidences probabilities) +
      lowCount (calculateConfidences probabilities) = probabilities.length ∧
    highCount [(4:ℚ)/5] = 1 ∧ mediumCount [(4:ℚ)/5] = 0 ∧ lowCount [(4:ℚ)/5] = 0 ∧
    highCount [(3:ℚ)/5] = 0 ∧ mediumCount [(3:ℚ)/5] = 1 ∧ lowCount [(3:ℚ)/5] = 0 ∧
    (∀ c : ℚ, lowCount [c] = 1 ↔ c < (3:ℚ)/5) := by
  refine ⟨?_, ?_, ?_, ?_, ?_, ?_, ?_, ?_⟩
  · have h := bucket_partition (calculateConfidences probabilities)
    simpa [calculateConfidences] using h
  · norm_num [highCount]
  · norm_num [mediumCount]
  · norm_num [lowCount]
  · norm_num [highCount]
  · norm_num [mediumCount]
  · norm_num [lowCount]
  · intro c
    by_cases h : c < (3:ℚ)/5 <;> simp [lowCount, h]

/-- Claim C5: a successful training run publishes exactly the staged events
preprocessing(10,20,30), training(40,50,60,70), evaluation(80), saving(90),
complete(100), in that order, with strictly increasing progress ending at 100;
the error(0) event appears in the published events only when the run raised. -/
theorem training_progress_events (run : TrainRun) (st : TrainState) :
    ((train_model run st).raised = false →
      (train_model run st).events =
        [⟨10, Stage.preprocessing⟩, ⟨20, Stage.preprocessing⟩, ⟨30, Stage.preprocessing⟩,
         ⟨40, Stage.training⟩, ⟨50, Stage.training⟩, ⟨60, Stage.training⟩,
         ⟨70, Stage.training⟩, ⟨80, Stage.evaluation⟩, ⟨90, Stage.saving⟩,
         ⟨100, Stage.complete⟩] ∧
      strictlyIncreasing (train_model run st).events = true ∧
      (train_model run st).events.getLast? = some ⟨100, Stage.complete⟩) ∧
    (ProgressEvent.mk 0 Stage.error ∈ (train_model run st).events →
      (train_model run st).raised = true) := by
  unfold train_model
  split_ifs with h1 h2 h3 h4
  · exact ⟨fun hr => absurd hr (by simp [errorOutcome]), fun _ => rfl⟩
  · exact ⟨fun hr => absurd hr (by simp [errorOutcome]), fun _ => rfl⟩
  · exact ⟨fun hr => absurd hr (by simp [errorOutcome]), fun _ => rfl⟩
  · exact ⟨fun hr => absurd hr (by simp [errorOutcome]), fun _ => rfl⟩
  · exact ⟨fun _ => ⟨rfl, rfl, rfl⟩, fun hm => absurd hm (by simp)⟩

/-- Witness for the C5 theorem: a fully successful concrete run publishes the
ten staged events in order. -/
theorem training_progress_events_witness :
    (train_model ⟨"20250101_120000", ["a", "a", "b", "b"], "RandomForest", false, false⟩
        ⟨[], [], []⟩).events =
      [⟨10, Stage.preprocessing⟩, ⟨20, Stage.preprocessing⟩, ⟨30, Stage.preprocessing⟩,
       ⟨40, Stage.training⟩, ⟨50, Stage.training⟩, ⟨60, Stage.training⟩,
       ⟨70, Stage.training⟩, ⟨80, Stage.evaluation⟩, ⟨90, Stage.saving⟩,
       ⟨100, Stage.complete⟩] ∧
    strictlyIncreasing (train_model ⟨"20250101_120000", ["a", "a", "b", "b"],
      "RandomForest", false, false⟩ ⟨[], [], []⟩).events = true :=
  have h := (training_progress_events
    ⟨"20250101_120000", ["a", "a", "b", "b"], "RandomForest", false, false⟩
    ⟨[], [], []⟩).1 (by decide)
  ⟨h.1, h.2.1⟩

/-- Claim C1 counterexample: on a dataset whose target has a class with a
single member (stratification infeasible) the training run raises and aborts
instead of degrading to an unstratified split; no artifact, metadata file or
history entry is produced. -/
theorem stratification_no_fallback_cex :
    stratifyInfeasible ["a", "a", "b"] = true ∧
    (train_model ⟨"20250101_090000", ["a", "a", "b"], "RandomForest", false, false⟩
      ⟨[], [], []⟩).raised = true ∧
    (train_model ⟨"20250101_090000", ["a", "a", "b"], "RandomForest", false, false⟩
      ⟨[], [], []⟩).state = ⟨[], [], []⟩ := by decide

/-- Claim C1 (amended): the train/test split always requests stratification by
the target (with the fixed seed 42 in the source); when stratification is
infeasible because some class has fewer than 2 members, the run does not
degrade to an unstratified split but fails: it publishes the error(0) event
after the two preprocessing events and re-raises, leaving the state
untouched. -/
theorem stratification_infeasible_run_fails (run : TrainRun) (st : TrainState)
    (h : stratifyInfeasible run.targetValues = true) :
    (train_model run st).raised = true ∧
    (train_model run st).state = st ∧
    (train_model run st).events =
      [⟨10, Stage.preprocessing⟩, ⟨20, Stage.preprocessing⟩, ⟨0, Stage.error⟩] := by
  unfold train_model
  simp [h, errorOutcome]

/-- Witness for the amended C1 theorem at a concrete single-member class. -/
theorem stratification_infeasible_run_fails_witness :
    stratifyInfeasible ["x"] = true ∧
    (train_model ⟨"20250101_130000", ["x"], "SVM", false, false⟩ ⟨[], [], []⟩).raised = true :=
  ⟨by decide,
   (stratification_infeasible_run_fails
     ⟨"20250101_130000", ["x"], "SVM", false, false⟩ ⟨[], [], []⟩ (by decide)).1⟩

/-- Claim C4 counterexample: a run whose metadata serialization raises (after
the artifact dump, which precedes it in the source) re-raises and emits the
error event, yet the model artifact file has already been persisted while the
history is unchanged — partial state survives the failed run. -/
theorem metadata_failure_partial_state_cex :
    (train_model ⟨"20250102_000000", ["a", "a", "b", "b"], "RandomForest", false, true⟩
      ⟨[], [], []⟩).raised = true ∧
    (train_model ⟨"20250102_000000", ["a", "a", "b", "b"], "RandomForest", false, true⟩
      ⟨[], [], []⟩).state.artifacts =
        ["RandomForest_classification_20250102_000000.joblib"] ∧
    (train_model ⟨"20250102_000000", ["a", "a", "b", "b"], "RandomForest", false, true⟩
      ⟨[], [], []⟩).state.metadataFiles = [] ∧
    (train_model ⟨"20250102_000000", ["a", "a", "b", "b"], "RandomForest", false, true⟩
      ⟨[], [], []⟩).state.history = [] := by decide

/-- Claim C4 (amended): every failing run emits the error(0) event last and
re-raises; a run that fails at or before the model fit (infeasible split,
unknown family, or an exception inside fit) leaves no partial state — no
artifact file, no metadata file, and an unchanged history; and a successful
run persists exactly one artifact, one metadata file and one history entry.
Only a failure after the artifact dump (during the metadata write) can leave
the artifact file behind. -/
theorem train_model_atomic_up_to_fit (run : TrainRun) (st : TrainState) :
    ((stratifyInfeasible run.targetValues = true ∨
      modelMapKeys.contains run.modelName = false ∨ run.fitRaises = true) →
      (train_model run st).raised = true ∧
      (train_model run st).state = st ∧
      (train_model run st).events.getLast? = some ⟨0, Stage.error⟩) ∧
    ((train_model run st).raised = false →
      (train_model run st).state.artifacts = st.artifacts ++
        [run.modelName ++ "_classification_" ++ run.trainingId ++ ".joblib"] ∧
      (train_model run st).state.metadataFiles = st.metadataFiles ++
        ["training_metadata_" ++ run.trainingId ++ ".json"] ∧
      (train_model run st).state.history = st.history ++
        [⟨run.trainingId, run.modelName⟩]) := by
  unfold train_model
  split_ifs with h1 h2 h3 h4
  · exact ⟨fun _ => ⟨rfl, rfl, rfl⟩, fun hr => absurd hr (by simp [errorOutcome])⟩
  · exact ⟨fun _ => ⟨rfl, rfl, rfl⟩, fun hr => absurd hr (by simp [errorOutcome])⟩
  · exact ⟨fun _ => ⟨rfl, rfl, rfl⟩, fun hr => absurd hr (by simp [errorOutcome])⟩
  · refine ⟨fun h => ?_, fun hr => absurd hr (by simp [errorOutcome])⟩
    rcases h with h | h | h
    · exact absurd h h1
    · exact absurd h (by simpa using h2)
    · exact absurd h h3
  · refine ⟨fun h => ?_, fun _ => ⟨rfl, rfl, rfl⟩⟩
    rcases h with h | h | h
    · exact absurd h h1
    · exact absurd h (by simpa using h2)
    · exact absurd h h3

/-- Witness for the amended C4 theorem: a concrete run whose fit raises leaves
the empty state untouched and ends its events with error(0). -/
theorem train_model_atomic_up_to_fit_witness :
    (train_model ⟨"20250103_000000", ["a", "a", "b", "b"], "KNN", true, false⟩
      ⟨[], [], []⟩).raised = true ∧
    (train_model ⟨"20250103_000000", ["a", "a", "b", "b"], "KNN", true, false⟩
      ⟨[], [], []⟩).state = ⟨[], [], []⟩ :=
  have h := (train_model_atomic_up_to_fit
    ⟨"20250103_000000", ["a", "a", "b", "b"], "KNN", true, false⟩
    ⟨[], [], []⟩).1 (Or.inr (Or.inr (by decide)))
  ⟨h.1, h.2.1⟩

/-- A present, nonempty path or name is truthy in Python. -/
theorem truthyOpt_some_of_ne (p : String) (hp : p ≠ "") : truthyOpt (some p) = true := by
  have hd : p.data ≠ [] := by
    intro h0
    exact hp (by cases p with | mk l => simp at h0; simp [h0])
  simp [truthyOpt, List.isEmpty_iff, hd]

/-- Claim C6: switching the current model to a name with no matching artifact
file raises FileNotFoundError before any bookkeeping is touched, the route
surfaces it as HTTP 404, and the whole registry state — loaded pipeline, path
and extracted schema included — is exactly what it was. -/
theorem switch_to_missing_artifact_unchanged (files : List String)
    (artifact : String → Option Pipeline) (svc : ModelService) (m : Pipeline) (n : String)
    (_hm : svc.model = some m) (hn : n ≠ "")
    (hglob : globFiles (n ++ "_") ".joblib" files = []) :
    ModelService.load_model files artifact svc none (some n) =
      (svc, some (LoadFailure.fileNotFound
        ("No " ++ n ++ " model found in models directory."))) ∧
    switch_model files artifact svc (some n) = (svc, 404) := by
  have hload : ModelService.load_model files artifact svc none (some n) =
      (svc, some (LoadFailure.fileNotFound
        ("No " ++ n ++ " model found in models directory."))) := by
    unfold ModelService.load_model
    have h1 : truthyOpt none = false := rfl
    simp [h1, truthyOpt_some_of_ne n hn, hglob]
  refine ⟨hload, ?_⟩
  unfold switch_model
  simp [truthyOpt_some_of_ne n hn, hload]

/-- Concrete registry state for the C6 witness: a GradientBoosting pipeline is
loaded and only its artifact exists on disk. -/
def c6pipeline : Pipeline :=
  { hasNamedSteps := true, preStep := some (["f1"], ["f2"]),
    modelClasses := some ["yes", "no"], rowPredict := fun _ => "yes", rowProba := none }

/-- Registry state used by the C6 witness. -/
def c6svc : ModelService :=
  { model := some c6pipeline,
    model_path := some "GradientBoosting_classification_20250101_000000.joblib",
    model_name := "GradientBoosting", is_classification := true,
    feature_names := some ["f1", "f2"], numeric_features := some ["f1"],
    categorical_features := some ["f2"], target_classes := some ["yes", "no"],
    current_model_name := "GradientBoosting" }

/-- Witness for the C6 theorem: switching to the family SVM, for which no
artifact file matches, returns 404 and leaves the registry identical. -/
theorem switch_to_missing_artifact_unchanged_witness :
    switch_model ["GradientBoosting_classification_20250101_000000.joblib"]
      (fun _ => some c6pipeline) c6svc (some "SVM") = (c6svc, 404) :=
  (switch_to_missing_artifact_unchanged
    ["GradientBoosting_classification_20250101_000000.joblib"]
    (fun _ => some c6pipeline) c6svc c6pipeline "SVM" rfl (by decide) (by decide)).2

/-- Claim C10: load_model with an explicit path overwrites the stored
model_path before deserialization; if deserialization fails, the service keeps
serving the previously loaded pipeline and schema, but model_path now names the
failed path, so get_model_info reports the failed path and a subsequent
argument-less load_model retries the failed path (and fails again), not the
loaded model's path. -/
theorem load_model_failed_path_partial_mutation (files : List String)
    (artifact : String → Option Pipeline) (svc : ModelService) (m : Pipeline) (p : String)
    (hm : svc.model = some m) (hp : p ≠ "") (hart : artifact p = none) :
    ModelService.load_model files artifact svc (some p) none =
      ({ svc with model_path := some p }, some LoadFailure.loadRaises) ∧
    ModelService.get_model_info { svc with model_path := some p } =
      some (svc.model_name, p) ∧
    ModelService.load_model files artifact { svc with model_path := some p } none none =
      ({ svc with model_path := some p }, some LoadFailure.loadRaises) := by
  have h1 : truthyOpt none = false := rfl
  refine ⟨?_, ?_, ?_⟩
  · unfold ModelService.load_model
    simp only [truthyOpt_some_of_ne p hp, if_true]
    unfold finishLoad
    simp [hart]
  · unfold ModelService.get_model_info
    simp [hm, pathStr]
  · unfold ModelService.load_model
    simp only [h1, truthyOpt_some_of_ne p hp, Bool.false_eq_true, if_false,
      Bool.not_true, Bool.not_false]
    unfold finishLoad
    simp [hart]

/-- Loaded pipeline for the C10 witness. -/
def c10pipeline : Pipeline :=
  { hasNamedSteps := true, preStep := some (["a"], []),
    modelClasses := some ["0", "1"], rowPredict := fun _ => "0", rowProba := none }

/-- Registry state for the C10 witness: a RandomForest pipeline is loaded from
its own artifact path. -/
def c10svc : ModelService :=
  { model := some c10pipeline,
    model_path := some "RandomForest_classification_20250101_000000.joblib",
    model_name := "RandomForest", is_classification := true,
    feature_names := some ["a"], numeric_features := some ["a"],
    categorical_features := some [], target_classes := some ["0", "1"],
    current_model_name := "RandomForest" }

/-- Witness for the C10 theorem at a concrete bad path whose deserialization
fails (the artifact map is everywhere-failing). -/
theorem load_model_failed_path_partial_mutation_witness :
    ModelService.load_model [] (fun _ => none) c10svc (some "corrupt.joblib") none =
      ({ c10svc with model_path := some "corrupt.joblib" }, some LoadFailure.loadRaises) ∧
    ModelService.get_model_info { c10svc with model_path := some "corrupt.joblib" } =
      some ("RandomForest", "corrupt.joblib") :=
  have h := load_model_failed_path_partial_mutation [] (fun _ => none) c10svc c10pipeline
    "corrupt.joblib" rfl (by decide) rfl
  ⟨h.1, h.2.1⟩

/-- Mapping a function of the element over an enumerated list ignores the
indices. -/
theorem enum_map_comp {α β : Type} (l : List α) (g : α → β) :
    l.enum.map (fun p => g p.2) = l.map g := by
  calc l.enum.map (fun p => g p.2) = (l.enum.map Prod.snd).map g := by
        rw [List.map_map]; rfl
    _ = l.map g := by rw [List.enum_map_snd]

/-- Claim C9: when the loaded artifact yielded no feature names (None or the
empty schema), predict and predict_batch perform no column validation at all:
validation returns any table unchanged, and both entry points succeed with one
prediction per unmodified input row, regardless of missing or extra
columns. -/
theorem empty_schema_no_validation (svc : ModelService) (m : Pipeline) (data : DataFrame)
    (hm : svc.model = some m)
    (hf : svc.feature_names = none ∨ svc.feature_names = some []) :
    validate_and_align_features svc.feature_names data = Except.ok data ∧
    (∃ r, svc.predict data = Except.ok r ∧ r.predictions = data.rows.map m.rowPredict) ∧
    (∃ ds, svc.predict_batch data = Except.ok ds ∧
      ds.map (fun d => d.prediction) = data.rows.map m.rowPredict) := by
  have hv : validate_and_align_features svc.feature_names data = Except.ok data := by
    rcases hf with hf | hf <;> simp [validate_and_align_features, hf]
  refine ⟨hv, ?_, ?_⟩
  · rcases hp : m.rowProba with _ | proba
    · refine ⟨{ predictions := data.rows.map m.rowPredict,
                probabilities := none, confidence := none }, ?_, rfl⟩
      simp [ModelService.predict, hm, hv, hp]
    · refine ⟨{ predictions := data.rows.map m.rowPredict,
                probabilities := some (data.rows.map proba),
                confidence := some ((data.rows.map proba).map rowMax) }, ?_, rfl⟩
      simp [ModelService.predict, hm, hv, hp]
  · rcases hp : m.rowProba with _ | proba
    · refine ⟨(data.rows.map m.rowPredict).enum.map (fun p => ⟨p.1, p.2, none⟩), ?_, ?_⟩
      · simp [ModelService.predict_batch, hm, hv, hp]
      · rw [List.map_map]
        rw [show ((fun d => RowDetail.prediction d) ∘
            (fun p : Nat × String => (⟨p.1, p.2, none⟩ : RowDetail))) =
            (fun p : Nat × String => p.2) from rfl]
        exact List.enum_map_snd _
    · refine ⟨(data.rows.map (fun r => (m.rowPredict r, rowMax (proba r)))).enum.map
        (fun p => ⟨p.1, p.2.1, some p.2.2⟩), ?_, ?_⟩
      · simp [ModelService.predict_batch, hm, hv, hp]
      · rw [List.map_map]
        have h := enum_map_comp (data.rows.map (fun r => (m.rowPredict r, rowMax (proba r))))
          (fun q : String × ℚ => q.1)
        rw [show ((fun d => RowDetail.prediction d) ∘
            (fun p : Nat × (String × ℚ) => (⟨p.1, p.2.1, some p.2.2⟩ : RowDetail))) =
            (fun p : Nat × (String × ℚ) => (fun q : String × ℚ => q.1) p.2) from rfl]
        rw [h, List.map_map]
        rfl

/-- Bare-estimator pipeline for the C9 witness: no named steps, hence no
extracted schema. -/
def c9pipeline : Pipeline :=
  { hasNamedSteps := false, preStep := none, modelClasses := none,
    rowPredict := fun _ => "z", rowProba := none }

/-- Service state for the C9 witness: feature_names is None. -/
def c9svc : ModelService :=
  { model := some c9pipeline, model_path := some "best_model_1.joblib",
    model_name := "RandomForest", is_classification := true,
    feature_names := none, numeric_features := none,
    categorical_features := none, target_classes := none,
    current_model_name := "RandomForest" }

/-- Table for the C9 witness, with columns unrelated to any schema. -/
def c9table : DataFrame :=
  { columns := ["foo", "bar"], rows := [["1", "x"], ["2", "y"]] }

/-- Witness for the C9 theorem: the unvalidated table passes through unchanged
and both prediction entry points succeed on it. -/
theorem empty_schema_no_validation_witness :
    validate_and_align_features c9svc.feature_names c9table = Except.ok c9table ∧
    (∃ r, c9svc.predict c9table = Except.ok r ∧
      r.predictions = c9table.rows.map c9pipeline.rowPredict) :=
  have h := empty_schema_no_validation c9svc c9pipeline c9table rfl (Or.inl rfl)
  ⟨h.1, h.2.1⟩

/-- Membership in the reported missing-column list is exactly being a schema
name absent from the table columns. -/
theorem mem_missingColumns (x : String) (names cols : List String) :
    x ∈ missingColumns names cols ↔ x ∈ names ∧ x ∉ cols := by
  unfold missingColumns
  rw [mem_sortStrings, List.mem_dedup, List.mem_filter]
  simp

/-- The missing-column list is empty exactly when every schema name occurs in
the table columns. -/
theorem missingColumns_eq_nil_iff (names cols : List String) :
    missingColumns names cols = [] ↔ ∀ n ∈ names, n ∈ cols := by
  constructor
  · intro h n hn
    by_contra hc
    have : n ∈ missingColumns names cols := (mem_missingColumns n names cols).2 ⟨hn, hc⟩
    simp [h] at this
  · intro h
    rw [List.eq_nil_iff_forall_not_mem]
    intro x hx
    obtain ⟨hx1, hx2⟩ := (mem_missingColumns x names cols).1 hx
    exact hx2 (h x hx1)

/-- Claim C3: with a loaded pipeline and a non-empty extracted schema, predict
on a table missing at least one schema feature fails with a schema-mismatch
error naming exactly the missing columns and predicts nothing; on a table
missing none, predict succeeds with exactly one label per input row, after the
input is reduced and reordered to the schema columns (extra columns dropped). -/
theorem predict_schema_validation (svc : ModelService) (m : Pipeline)
    (names : List String) (data : DataFrame)
    (hm : svc.model = some m) (hf : svc.feature_names = some names) (hne : names ≠ []) :
    ((∃ n ∈ names, n ∉ data.columns) →
      svc.predict data =
        Except.error (PredictError.schemaMismatch (missingColumns names data.columns)) ∧
      (∀ x, x ∈ missingColumns names data.columns ↔ x ∈ names ∧ x ∉ data.columns)) ∧
    ((∀ n ∈ names, n ∈ data.columns) →
      ∃ r, svc.predict data = Except.ok r ∧
        r.predictions.length = data.rows.length ∧
        validate_and_align_features svc.feature_names data =
          Except.ok (selectColumns data names) ∧
        (selectColumns data names).columns = names) := by
  have hneb : names.isEmpty = false := by
    cases names with
    | nil => exact absurd rfl hne
    | cons a t => rfl
  constructor
  · rintro ⟨n, hn, hncol⟩
    have hmiss : missingColumns names data.columns ≠ [] := by
      intro h0
      exact hncol ((missingColumns_eq_nil_iff names data.columns).1 h0 n hn)
    have hmissb : (missingColumns names data.columns).isEmpty = false := by
      cases h0 : missingColumns names data.columns with
      | nil => exact absurd h0 hmiss
      | cons a t => rfl
    refine ⟨?_, fun x => mem_missingColumns x names data.columns⟩
    simp [ModelService.predict, hm, validate_and_align_features, hf, hneb, hmissb]
  · intro hall
    have hmiss : missingColumns names data.columns = [] :=
      (missingColumns_eq_nil_iff names data.columns).2 hall
    have hv : validate_and_align_features svc.feature_names data =
        Except.ok (selectColumns data names) := by
      simp [validate_and_align_features, hf, hneb, hmiss]
    rcases hp : m.rowProba with _ | proba
    · refine ⟨{ predictions := (selectColumns data names).rows.map m.rowPredict,
                probabilities := none, confidence := none }, ?_, ?_, hv, rfl⟩
      · simp [ModelService.predict, hm, hv, hp]
      · simp [selectColumns]
    · refine ⟨{ predictions := (selectColumns data names).rows.map m.rowPredict,
                probabilities := some ((selectColumns data names).rows.map proba),
                confidence :=
                  some (((selectColumns data names).rows.map proba).map rowMax) }, ?_, ?_, hv, rfl⟩
      · simp [ModelService.predict, hm, hv, hp]
      · simp [selectColumns]

/-- Pipeline for the C3 witness: a two-feature schema was extracted. -/
def c3pipeline : Pipeline :=
  { hasNamedSteps := true, preStep := some (["age"], ["colour"]),
    modelClasses := some ["yes", "no"], rowPredict := fun _ => "yes", rowProba := none }

/-- Service state for the C3 witness: schema ["age", "colour"]. -/
def c3svc : ModelService :=
  { model := some c3pipeline,
    model_path := some "RandomForest_classification_20250101_000000.joblib",
    model_name := "RandomForest", is_classification := true,
    feature_names := some ["age", "colour"], numeric_features := some ["age"],
    categorical_features := some ["colour"], target_classes := some ["yes", "no"],
    current_model_name := "RandomForest" }

/-- Table for the C3 witness: schema columns in a different order plus an extra
column, nothing missing. -/
def c3table : DataFrame :=
  { columns := ["colour", "extra", "age"],
    rows := [["red", "x", "31"], ["blue", "y", "45"]] }

/-- Witness for the C3 theorem: on a complete table (reordered, with an extra
column) predict succeeds with one label per row; the same service on a table
lacking the column age reports exactly that column as missing. -/
theorem predict_schema_validation_witness :
    (∃ r, c3svc.predict c3table = Except.ok r ∧ r.predictions.length = 2) ∧
    c3svc.predict { columns := ["colour"], rows := [["red"]] } =
      Except.error (PredictError.schemaMismatch ["age"]) := by
  constructor
  · obtain ⟨r, hok, hlen, -, -⟩ :=
      (predict_schema_validation c3svc c3pipeline ["age", "colour"] c3table rfl rfl
        (by decide)).2 (by decide)
    exact ⟨r, hok, by rw [hlen]; rfl⟩
  · have h := (predict_schema_validation c3svc c3pipeline ["age", "colour"]
      { columns := ["colour"], rows := [["red"]] } rfl rfl (by decide)).1
      ⟨"age", by decide, by decide⟩
    have hm : missingColumns ["age", "colour"] ["colour"] = ["age"] := by decide
    rw [hm] at h
    exact h.1

/-- A key absent from the association-list keys is not found by the dict
membership test. -/
theorem dictHasKey_eq_false_of_not_mem_keys {α : Type} (d : List (String × α))
    (k : String) (h : k ∉ d.map Prod.fst) : dictHasKey d k = false := by
  induction d with
  | nil => rfl
  | cons p rest ih =>
    have h1 : ¬(p.1 = k) := by
      intro hpk
      exact h (by simp [hpk])
    have h2 : k ∉ rest.map Prod.fst := by
      intro hk
      exact h (by simp [hk])
    simp [dictHasKey, h1, ih h2]

/-- The per-session removal keeps the session id of a surviving entry. -/
theorem removeFromSession_key (c : Conn) (p q : String × List Conn)
    (h : removeFromSession c p = some q) : q.1 = p.1 := by
  simp only [removeFromSession] at h
  by_cases h1 : c ∈ p.2
  · by_cases h2 : (p.2.erase c).isEmpty
    · simp [h1, h2] at h
    · simp only [h1, h2, if_pos, if_neg, if_true, if_false, Bool.false_eq_true,
        Option.some.injEq] at h
      rw [← h]
  · simp [h1] at h
    rw [← h]

/-- Keys absent before a disconnect are still absent afterwards. -/
theorem dictHasKey_filterMap_false (sessions : List (String × List Conn)) (c : Conn)
    (k : String) (h : dictHasKey sessions k = false) :
    dictHasKey (sessions.filterMap (removeFromSession c)) k = false := by
  induction sessions with
  | nil => rfl
  | cons p rest ih =>
    have hp : ¬(p.1 = k) := by
      intro hpk
      simp [dictHasKey, hpk] at h
    have hrest : dictHasKey rest k = false := by
      simpa [dictHasKey, hp] using h
    cases hrem : removeFromSession c p with
    | none => simpa [List.filterMap_cons, hrem] using ih hrest
    | some q =>
      have hq : q.1 = p.1 := removeFromSession_key c p q hrem
      simp only [List.filterMap_cons, hrem, dictHasKey, hq, if_neg hp]
      exact ih hrest

/-- Effect of a disconnect on the subscriber set of any session: with unique
session keys and duplicate-free subscriber sets, the subscribers seen by a
later publish are exactly the previous subscribers with the connection
removed. -/
theorem disconnect_lookup (sessions : List (String × List Conn)) (c : Conn) (sid : String)
    (hK : (sessions.map Prod.fst).Nodup) :
    dictGet (sessions.filterMap (removeFromSession c)) sid [] =
      (dictGet sessions sid []).erase c := by
  induction sessions with
  | nil => rfl
  | cons p rest ih =>
    have hK1 : p.1 ∉ rest.map Prod.fst := by
      simp only [List.map_cons, List.nodup_cons] at hK
      exact hK.1
    have hK2 : (rest.map Prod.fst).Nodup := by
      simp only [List.map_cons, List.nodup_cons] at hK
      exact hK.2
    by_cases hmem : c ∈ p.2
    · by_cases hnil : (p.2.erase c).isEmpty
      · have hrem : removeFromSession c p = none := by
          simp [removeFromSession, hmem, hnil]
        by_cases hsid : p.1 = sid
        · have hkey : dictHasKey (rest.filterMap (removeFromSession c)) sid = false :=
            dictHasKey_filterMap_false rest c sid
              (dictHasKey_eq_false_of_not_mem_keys rest sid (hsid ▸ hK1))
          rw [List.filterMap_cons, hrem]
          rw [dictGet_eq_default _ _ _ hkey]
          simp only [dictGet, if_pos hsid]
          rw [List.isEmpty_iff] at hnil
          rw [hnil]
        · rw [List.filterMap_cons, hrem]
          simp only [dictGet, if_neg hsid]
          exact ih hK2
      · have hrem : removeFromSession c p = some (p.1, p.2.erase c) := by
          simp [removeFromSession, hmem, hnil]
        by_cases hsid : p.1 = sid
        · rw [List.filterMap_cons, hrem]
          simp only [dictGet, if_pos hsid]
        · rw [List.filterMap_cons, hrem]
          simp only [dictGet, if_neg hsid]
          exact ih hK2
    · have hrem : removeFromSession c p = some p := by
        simp [removeFromSession, hmem]
      by_cases hsid : p.1 = sid
      · rw [List.filterMap_cons, hrem]
        simp only [dictGet, if_pos hsid]
        exact (List.erase_of_not_mem hmem).symm
      · rw [List.filterMap_cons, hrem]
        simp only [dictGet, if_neg hsid]
        exact ih hK2

/-- A session entry emptied by the disconnect is deleted from the session
dict. -/
theorem disconnect_removes_emptied (sessions : List (String × List Conn)) (c : Conn)
    (p : String × List Conn) (hK : (sessions.map Prod.fst).Nodup)
    (hp : p ∈ sessions) (hc : c ∈ p.2) (he : (p.2.erase c).isEmpty = true) :
    dictHasKey (sessions.filterMap (removeFromSession c)) p.1 = false := by
  induction sessions with
  | nil => cases hp
  | cons q rest ih =>
    have hK1 : q.1 ∉ rest.map Prod.fst := by
      simp only [List.map_cons, List.nodup_cons] at hK
      exact hK.1
    have hK2 : (rest.map Prod.fst).Nodup := by
      simp only [List.map_cons, List.nodup_cons] at hK
      exact hK.2
    rcases List.mem_cons.1 hp with hpq | hprest
    · subst hpq
      have hrem : removeFromSession c p = none := by
        simp [removeFromSession, hc, he]
      rw [List.filterMap_cons, hrem]
      exact dictHasKey_filterMap_false rest c p.1
        (dictHasKey_eq_false_of_not_mem_keys rest p.1 hK1)
    · have hne : ¬(q.1 = p.1) := by
        intro hq
        exact hK1 (hq ▸ List.mem_map_of_mem Prod.fst hprest)
      cases hrem : removeFromSession c q with
      | none =>
        rw [List.filterMap_cons, hrem]
        exact ih hK2 hprest
      | some q2 =>
        rw [List.filterMap_cons, hrem]
        have hq2 : q2.1 = q.1 := removeFromSession_key c q q2 hrem
        simp only [dictHasKey, hq2, if_neg hne]
        exact ih hK2 hprest

/-- Python dict indexing either returns the default or the value of a present
entry with the matching key. -/
theorem dictGet_cases {α : Type} (d : List (String × α)) (k : String) (dflt : α) :
    dictGet d k dflt = dflt ∨ ∃ p ∈ d, p.1 = k ∧ dictGet d k dflt = p.2 := by
  induction d with
  | nil => exact Or.inl rfl
  | cons p rest ih =>
    by_cases hp : p.1 = k
    · exact Or.inr ⟨p, List.mem_cons_self p rest, hp, by simp [dictGet, hp]⟩
    · rcases ih with h | ⟨q, hq, hqk, hqv⟩
      · exact Or.inl (by simpa [dictGet, hp] using h)
      · exact Or.inr ⟨q, List.mem_cons_of_mem p hq, hqk, by simpa [dictGet, hp] using hqv⟩

/-- Claim C8: unsubscribing a connection removes it from the global connection
list and from every session subscriber set, deletes any session entry whose
set becomes empty, and a subsequent publish delivers to exactly the remaining
subscribers of the session: the unsubscribed connection receives nothing and
any other subscriber is delivered to exactly as before. -/
theorem unsubscribe_removes_and_preserves_delivery (cm : ConnectionManager) (c : Conn)
    (sid : String) (hA : cm.active_connections.Nodup)
    (hK : (cm.training_sessions.map Prod.fst).Nodup)
    (hS : ∀ p ∈ cm.training_sessions, p.2.Nodup) :
    c ∉ (cm.disconnect c).active_connections ∧
    (∀ q ∈ (cm.disconnect c).training_sessions, c ∉ q.2) ∧
    (∀ p ∈ cm.training_sessions, c ∈ p.2 → (p.2.erase c).isEmpty = true →
      dictHasKey (cm.disconnect c).training_sessions p.1 = false) ∧
    (cm.disconnect c).sendToSession sid = (cm.sendToSession sid).erase c ∧
    c ∉ (cm.disconnect c).sendToSession sid ∧
    (∀ d, d ≠ c → (d ∈ (cm.disconnect c).sendToSession sid ↔ d ∈ cm.sendToSession sid)) := by
  have hsend : (cm.disconnect c).sendToSession sid = (cm.sendToSession sid).erase c := by
    unfold ConnectionManager.sendToSession ConnectionManager.sessionSubscribers
      ConnectionManager.disconnect
    exact disconnect_lookup cm.training_sessions c sid hK
  refine ⟨?_, ?_, ?_, hsend, ?_, ?_⟩
  · by_cases hc : c ∈ cm.active_connections
    · simp only [ConnectionManager.disconnect, if_pos hc]
      exact hA.not_mem_erase
    · simp only [ConnectionManager.disconnect, if_neg hc]
      exact hc
  · intro q hq
    simp only [ConnectionManager.disconnect] at hq
    obtain ⟨p, hp, hrem⟩ := List.mem_filterMap.1 hq
    by_cases hmem : c ∈ p.2
    · by_cases hnil : (p.2.erase c).isEmpty
      · simp [removeFromSession, hmem, hnil] at hrem
      · have hq2 : (p.1, p.2.erase c) = q := by
          simpa [removeFromSession, hmem, hnil] using hrem
        rw [← hq2]
        exact (hS p hp).not_mem_erase
    · have hq2 : p = q := by
        simpa [removeFromSession, hmem] using hrem
      rw [← hq2]
      exact hmem
  · intro p hp hc he
    exact disconnect_removes_emptied cm.training_sessions c p hK hp hc he
  · rw [hsend]
    rcases dictGet_cases cm.training_sessions sid [] with h | ⟨p, hp, -, hv⟩
    · unfold ConnectionManager.sendToSession ConnectionManager.sessionSubscribers
      rw [h]
      simp
    · unfold ConnectionManager.sendToSession ConnectionManager.sessionSubscribers
      rw [hv]
      exact (hS p hp).not_mem_erase
  · intro d hd
    rw [hsend]
    exact List.mem_erase_of_ne hd

/-- Witness for the C8 theorem on a concrete channel with two sessions:
unsubscribing connection 1 removes it everywhere, and a publish to session s
afterwards delivers to exactly the remaining subscriber 2. -/
theorem unsubscribe_removes_and_preserves_delivery_witness :
    1 ∉ (ConnectionManager.disconnect ⟨[1, 2, 3], [("s", [1, 2]), ("t", [3])]⟩
      1).active_connections ∧
    (ConnectionManager.disconnect ⟨[1, 2, 3], [("s", [1, 2]), ("t", [3])]⟩
      1).sendToSession "s" = [2] ∧
    (2 ∈ (ConnectionManager.disconnect ⟨[1, 2, 3], [("s", [1, 2]), ("t", [3])]⟩
      1).sendToSession "s" ↔
     2 ∈ (⟨[1, 2, 3], [("s", [1, 2]), ("t", [3])]⟩ : ConnectionManager).sendToSession "s") :=
  have h := unsubscribe_removes_and_preserves_delivery
    ⟨[1, 2, 3], [("s", [1, 2]), ("t", [3])]⟩ 1 "s" (by decide) (by decide) (by decide)
  ⟨h.1, by rw [h.2.2.2.1]; decide, h.2.2.2.2.2 2 (by decide)⟩
